import Mathlib

/-!
Verification of the `python-sql-server-agent` repository: a shallow embedding
of its connection-URL builders (`src/sql/clients.py`), client session layer and
factory registry (`src/sql/model.py`), and query explorer (`src/sql/explorer.py`),
together with theorems settling the specification claims.
-/

namespace SqlAgent

/-! ## Embedding of `urllib.parse.quote_plus`

Python's `quote_plus` keeps ASCII letters, digits and `_ . - ~` unchanged,
maps a space to `+`, and percent-encodes (uppercase hex) every other byte of
the character's UTF-8 encoding.  The default `safe` argument of `quote_plus`
is empty, so `/` is encoded as well. -/

/-- UTF-8 encoding of a Unicode code point as a list of byte values. -/
def utf8Bytes (n : Nat) : List Nat :=
  if n < 0x80 then [n]
  else if n < 0x800 then [0xC0 + n / 64, 0x80 + n % 64]
  else if n < 0x10000 then [0xE0 + n / 4096, 0x80 + (n / 64) % 64, 0x80 + n % 64]
  else [0xF0 + n / 262144, 0x80 + (n / 4096) % 64, 0x80 + (n / 64) % 64, 0x80 + n % 64]

/-- Uppercase hexadecimal digit for a value below 16. -/
def hexDigit (n : Nat) : Char :=
  if n < 10 then Char.ofNat (48 + n) else Char.ofNat (55 + n)

/-- Percent-encoding of one byte, e.g. `%40` for the byte 64. -/
def percentByte (b : Nat) : String :=
  String.mk ['%', hexDigit (b / 16), hexDigit (b % 16)]

/-- Characters `quote_plus` leaves unchanged: ASCII alphanumerics and `_ . - ~`. -/
def quoteSafe (c : Char) : Bool :=
  c.isAlphanum || c = '_' || c = '.' || c = '-' || c = '~'

/-- Encoding of a single character under `quote_plus` semantics. -/
def quotePlusChar (c : Char) : String :=
  if c = ' ' then "+"
  else if quoteSafe c then String.singleton c
  else String.join ((utf8Bytes c.toNat).map percentByte)

/-- Embedding of Python's `urllib.parse.quote_plus` (as used in
`src/sql/clients.py`). -/
def quote_plus (s : String) : String :=
  String.join (s.toList.map quotePlusChar)

/-! ## `DatabaseType` (src/sql/model.py) -/

/-- The closed enumeration of supported database backends. -/
inductive DatabaseType
  | SQLSERVER
  | POSTGRESQL
  | MYSQL
  | SQLITE
deriving DecidableEq

/-- The enum member's string value (`DatabaseType.SQLSERVER.value == "sqlserver"`). -/
def DatabaseType.value : DatabaseType → String
  | .SQLSERVER => "sqlserver"
  | .POSTGRESQL => "postgresql"
  | .MYSQL => "mysql"
  | .SQLITE => "sqlite"

/-- Python's `str()` rendering of the enum member, as used by the f-string in
`DatabaseClientFactory.create`'s error message. -/
def DatabaseType.pyStr : DatabaseType → String
  | .SQLSERVER => "DatabaseType.SQLSERVER"
  | .POSTGRESQL => "DatabaseType.POSTGRESQL"
  | .MYSQL => "DatabaseType.MYSQL"
  | .SQLITE => "DatabaseType.SQLITE"

/-! ## Connection configurations and URL builders (src/sql/clients.py)

One record per client class, holding the constructor arguments stored on
`self`; the builder functions translate each `_build_connection_url` method. -/

/-- Constructor arguments of `SQLServerClient`. -/
structure SQLServerConfig where
  server : String
  database : String
  username : Option String
  password : Option String
  driver : String
  trusted_connection : Bool
  echo : Bool
  mars_connection : Bool
deriving DecidableEq

/-- The `params` dict of `SQLServerClient._build_connection_url`, as an
association list in Python dict insertion order; `none` stands for a Python
`None` value. -/
def sqlServerParams (c : SQLServerConfig) : List (String × Option String) :=
  [("driver", some c.driver), ("server", some c.server), ("database", some c.database)]
    ++ (if c.trusted_connection then [("trusted_connection", some "yes")]
        else [("uid", c.username), ("pwd", c.password)])
    ++ (if c.mars_connection then
          [("Mars_Connection", some "yes"), ("MultipleActiveResultSets", some "True")]
        else [])
    ++ [("TrustServerCertificate", some "yes"),
        ("Connection Timeout", some "30"), ("Command Timeout", some "30")]

/-- The key/value pairs that survive the `if value is not None` filter of the
list comprehension in `SQLServerClient._build_connection_url`. -/
def presentParams (c : SQLServerConfig) : List (String × String) :=
  (sqlServerParams c).filterMap (fun kv => kv.2.map (fun v => (kv.1, v)))

/-- The `connection_parts` list: `f"{key}={quote_plus(str(value))}"` for each
param whose value is not `None`. -/
def connectionParts (c : SQLServerConfig) : List String :=
  (presentParams c).map (fun kv => kv.1 ++ "=" ++ quote_plus kv.2)

/-- `SQLServerClient._build_connection_url`: joins the parts with `;` and wraps
the whole string as one percent-encoded `odbc_connect` parameter. -/
def SQLServerClient.build_connection_url (c : SQLServerConfig) : String :=
  "mssql+pyodbc:///?odbc_connect=" ++ quote_plus (String.intercalate ";" (connectionParts c))

/-- Constructor arguments of `PostgreSQLClient`. -/
structure PostgreSQLConfig where
  host : String
  database : String
  username : String
  password : String
  port : Int
  echo : Bool
  schema : String
deriving DecidableEq

/-- `PostgreSQLClient._build_connection_url`: only the password goes through
`quote_plus`; the username is interpolated verbatim. -/
def PostgreSQLClient.build_connection_url (c : PostgreSQLConfig) : String :=
  "postgresql://" ++ c.username ++ ":" ++ quote_plus c.password
    ++ "@" ++ c.host ++ ":" ++ toString c.port ++ "/" ++ c.database

/-- Constructor arguments of `MySQLClient`. -/
structure MySQLConfig where
  host : String
  database : String
  username : String
  password : String
  port : Int
  echo : Bool
  charset : String
deriving DecidableEq

/-- `MySQLClient._build_connection_url`: only the password goes through
`quote_plus`; the username is interpolated verbatim. -/
def MySQLClient.build_connection_url (c : MySQLConfig) : String :=
  "mysql+pymysql://" ++ c.username ++ ":" ++ quote_plus c.password
    ++ "@" ++ c.host ++ ":" ++ toString c.port ++ "/" ++ c.database
    ++ "?charset=" ++ c.charset

/-- Constructor arguments of `SQLiteClient`. -/
structure SQLiteConfig where
  database_path : String
  echo : Bool
deriving DecidableEq

/-- `SQLiteClient._build_connection_url`. -/
def SQLiteClient.build_connection_url (c : SQLiteConfig) : String :=
  "sqlite:///" ++ c.database_path

/-- Constructor arguments of `GenericClient`. -/
structure GenericClientConfig where
  url : String
  echo : Bool
deriving DecidableEq

/-- `GenericClient._build_connection_url`: returns the stored URL verbatim. -/
def GenericClient.build_connection_url (c : GenericClientConfig) : String :=
  c.url

/-! ## Factory registry (src/sql/model.py, `DatabaseClientFactory`)

The registry is the class-level dict `_registry: Dict[DatabaseType, type]`,
embedded as an association list in insertion order; a constructor is a
function from keyword arguments to a client value (both abstract types). -/

/-- Lookup in the registry dict (`cls._registry[db_type]` / membership test). -/
def registryLookup (r : List (DatabaseType × α)) (k : DatabaseType) : Option α :=
  match r with
  | [] => none
  | (k', c) :: rest => if k' = k then some c else registryLookup rest k

/-- Python dict assignment `cls._registry[db_type] = client_class`: replaces
the value in place when the key exists, appends otherwise. -/
def registryInsert (r : List (DatabaseType × α)) (k : DatabaseType) (c : α) :
    List (DatabaseType × α) :=
  match r with
  | [] => [(k, c)]
  | (k', c') :: rest =>
      if k' = k then (k, c) :: rest else (k', c') :: registryInsert rest k c

/-- `DatabaseClientFactory.register(db_type)`'s decorator body: inserts the
class into the registry (and returns the class unchanged, which the embedding
does not need to track). -/
def DatabaseClientFactory.register (r : List (DatabaseType × α)) (k : DatabaseType)
    (c : α) : List (DatabaseType × α) :=
  registryInsert r k c

/-- The error message raised by `DatabaseClientFactory.create` for an
unregistered type: `f"Unknown database type: {db_type}. Available: {available}"`
where `available` joins the `value` of every registered kind with `", "`. -/
def unknownTypeMessage (r : List (DatabaseType × α)) (k : DatabaseType) : String :=
  "Unknown database type: " ++ k.pyStr ++ ". Available: "
    ++ String.intercalate ", " (r.map (fun e => e.1.value))

/-- `DatabaseClientFactory.create(db_type, **kwargs)`: looks the type up in the
registry, raising `ValueError` with `unknownTypeMessage` when absent, otherwise
invokes the registered constructor on the keyword arguments.  The method only
reads `_registry`; the second component of the result is the registry as the
call leaves it (always unchanged). -/
def DatabaseClientFactory.create {κ : Type u} {β : Type v}
    (r : List (DatabaseType × (κ → β))) (k : DatabaseType)
    (kwargs : κ) : Except String β × List (DatabaseType × (κ → β)) :=
  match registryLookup r k with
  | none => (Except.error (unknownTypeMessage r k), r)
  | some ctor => (Except.ok (ctor kwargs), r)

/-- `DatabaseClientFactory.from_url(url, echo)`: constructs a `GenericClient`
directly; the method body performs no registry access.  The registry argument
is threaded through unchanged to make that observable. -/
def DatabaseClientFactory.from_url (r : List (DatabaseType × α)) (url : String)
    (echo : Bool) : GenericClientConfig × List (DatabaseType × α) :=
  (⟨url, echo⟩, r)

/-! ## Client session layer (src/sql/model.py, `DatabaseClient`)

The statements themselves are executed by SQLAlchemy; the repository's
contribution is the session scoping of `get_session` (commit on success,
rollback and re-raise on exception) and the loops of `execute_query` /
`execute_many`.  The database held behind the engine is an abstract state `σ`
and a statement is an abstract effect on it that may fail. -/

/-- Error taxonomy.  `closedResourceError` is modelled from the spec's error
taxonomy ("ClosedResourceError: operation attempted on a Client after
close()"); the source defines no such error and no code path produces it. -/
inductive DbError
  | queryError (msg : String)
  | closedResourceError
deriving DecidableEq

/-- One parameterized statement as executed by the underlying engine: given
bound parameters and the database state, it either fails or returns the new
state and a result value. -/
structure Statement (σ π ρ : Type) where
  exec : π → σ → Except DbError (σ × ρ)

/-- `DatabaseClient.get_session`'s context-manager semantics: the body works
on a pending view of the state; `session.commit()` persists the body's final
state on normal completion, and on an exception `session.rollback()` discards
it and the exception is re-raised (the caller observes the original state
together with the error). -/
def get_session_run (db : σ) (body : σ → Except DbError (σ × α)) :
    σ × Except DbError α :=
  match body db with
  | Except.ok (db2, a) => (db2, Except.ok a)
  | Except.error e => (db, Except.error e)

/-- `DatabaseClient.execute_query`: one statement inside one `get_session`
scope. -/
def DatabaseClient.execute_query (db : σ) (stmt : Statement σ π ρ) (params : π) :
    σ × Except DbError ρ :=
  get_session_run db (fun d => stmt.exec params d)

/-- The `for params in params_list: session.execute(...)` loop of
`execute_many`, run on the session's pending state; the first failing
execution aborts the loop with its error. -/
def runParamsList (stmt : Statement σ π ρ) (psl : List π) (d : σ) :
    Except DbError σ :=
  match psl with
  | [] => Except.ok d
  | p :: rest =>
      match stmt.exec p d with
      | Except.ok (d2, _) => runParamsList stmt rest d2
      | Except.error e => Except.error e

/-- `DatabaseClient.execute_many`: the whole loop inside one `get_session`
scope. -/
def DatabaseClient.execute_many (db : σ) (stmt : Statement σ π ρ) (psl : List π) :
    σ × Except DbError Unit :=
  get_session_run db (fun d => (runParamsList stmt psl d).map (fun d2 => (d2, ())))

/-- A client owns a database state plus its engine's pool status.  The only
state `close()` touches is the pool. -/
structure ClientState (σ : Type) where
  db : σ
  pool_disposed : Bool

/-- `DatabaseClient.close`: `self.engine.dispose()`.  Per SQLAlchemy's
documented semantics, `dispose` closes the pooled connections and replaces the
pool; the `Engine` itself stays usable and re-creates the pool on the next
connection request.  The method sets no closed flag. -/
def DatabaseClient.close (c : ClientState σ) : ClientState σ :=
  { c with pool_disposed := true }

/-- `execute_query` at the client level: acquiring a session from the engine
re-creates the pool if it was disposed (SQLAlchemy semantics), then runs the
statement in a session scope.  No check of any closed state exists. -/
def DatabaseClient.execute_query_client (c : ClientState σ) (stmt : Statement σ π ρ)
    (params : π) : ClientState σ × Except DbError ρ :=
  let r := DatabaseClient.execute_query c.db stmt params
  (⟨r.1, false⟩, r.2)

/-- `execute_many` at the client level, analogous to
`DatabaseClient.execute_query_client`. -/
def DatabaseClient.execute_many_client (c : ClientState σ) (stmt : Statement σ π ρ)
    (psl : List π) : ClientState σ × Except DbError Unit :=
  let r := DatabaseClient.execute_many c.db stmt psl
  (⟨r.1, false⟩, r.2)

/-! ## Query explorer (src/sql/explorer.py)

For the claims about `exists` and `fetch_one` the SQL executed by the engine
is the two query shapes the explorer builds:
`SELECT * FROM {table} WHERE {column} = :x` and
`SELECT 1 FROM {table} WHERE {column} = :value LIMIT 1`.
The database is a concrete store of named tables of rows. -/

/-- A dynamically typed SQL scalar. -/
inductive Value
  | nullV
  | intV (n : Int)
  | textV (s : String)
  | boolV (b : Bool)
deriving DecidableEq

/-- A result row: ordered mapping from column name to value. -/
abbrev Row := List (String × Value)

/-- A stored table: a list of rows. -/
abbrev TableData := List Row

/-- The database: named tables. -/
abbrev SqlDB := List (String × TableData)

/-- Rows of a named table (an unknown table has no rows to return). -/
def tableRows (db : SqlDB) (t : String) : TableData :=
  match db with
  | [] => []
  | (t', rows) :: rest => if t' = t then rows else tableRows rest t

/-- Value of a column within a row. -/
def rowValue (r : Row) (c : String) : Option Value :=
  match r with
  | [] => none
  | (c', v) :: rest => if c' = c then some v else rowValue rest c

/-- Semantics of the SQL filter `FROM {t} WHERE {c} = :x` with the bound value
`v` (executed by the external engine): the rows of `t` whose column `c` holds
`v`. -/
def selectWhereEq (db : SqlDB) (t c : String) (v : Value) : TableData :=
  (tableRows db t).filter (fun r => rowValue r c = some v)

/-- `DatabaseExplorer.fetch_one` on the query
`SELECT * FROM {t} WHERE {c} = :x`: the first row of the result set, or `none`
when the result set is empty (`result.fetchone()` plus the `None` check). -/
def DatabaseExplorer.fetch_one_where (db : SqlDB) (t c : String) (v : Value) :
    Option Row :=
  (selectWhereEq db t c v).head?

/-- `DatabaseExplorer.exists`: builds
`SELECT 1 FROM {t} WHERE {c} = :value LIMIT 1` (projection to the constant
column `1`, at most one row), fetches one row through `fetch_one`, and returns
whether it was not `None`. -/
def DatabaseExplorer.existsB (db : SqlDB) (t c : String) (v : Value) : Bool :=
  ((((selectWhereEq db t c v).take 1).map (fun _ => [("1", Value.intV 1)])).head?).isSome

/-! ## Spec-side variants and concrete fixtures

Definitions written from the specification's words (clearly marked), to be
compared against the embeddings of the source, plus concrete statements and
registries used to instantiate the theorems. -/

/-- Modelled from the spec: "missing required field for the selected auth mode
(e.g., SQLServer credentials mode without username) should fail fast before
any connection attempt" and "ConfigurationError: required field
missing/invalid for chosen backend+auth mode".  A checked variant of the
SQLServer builder that raises the configuration error the spec describes.
The source's `SQLServerClient._build_connection_url` performs no such check. -/
def SQLServerClient.build_connection_url_specChecked (c : SQLServerConfig) :
    Except String String :=
  if !c.trusted_connection && (c.username.isNone || c.password.isNone) then
    Except.error "ConfigurationError: SQLServer credentials mode requires username and password"
  else
    Except.ok (SQLServerClient.build_connection_url c)

/-- Modelled from the spec: "percent-encoding any credential or parameter
values that may contain reserved characters" — a variant of the PostgreSQL
builder that percent-encodes the username as well as the password.  The
source's `PostgreSQLClient._build_connection_url` encodes only the password. -/
def PostgreSQLClient.build_connection_url_specEncoded (c : PostgreSQLConfig) : String :=
  "postgresql://" ++ quote_plus c.username ++ ":" ++ quote_plus c.password
    ++ "@" ++ c.host ++ ":" ++ toString c.port ++ "/" ++ c.database

/-- A statement that always succeeds and returns the constant 1, for
instantiating the session-layer theorems. -/
def stmtConst : Statement Nat Unit Nat :=
  ⟨fun _ d => Except.ok (d, 1)⟩

/-- A statement that increments the state when its parameter is `true` and
fails when it is `false`. -/
def stmtFlag : Statement Nat Bool Unit :=
  ⟨fun p d => if p then Except.ok (d + 1, ()) else Except.error (DbError.queryError "boom")⟩

/-- A partial registry (only PostgreSQL and SQLite registered), for
instantiating the unregistered-kind theorem. -/
def partialRegistry : List (DatabaseType × (Unit → Unit)) :=
  [(DatabaseType.POSTGRESQL, fun _ => ()), (DatabaseType.SQLITE, fun _ => ())]

/-- A SQLServer configuration in credentials mode with both credentials
absent. -/
def sqlServerCfgNoCreds : SQLServerConfig :=
  ⟨"localhost", "mydb", none, none, "ODBC Driver 17 for SQL Server", false, false, true⟩

/-! ## Theorems -/

/-- Helper: a Python dict assignment is found by a subsequent lookup of the
same key. -/
theorem registryLookup_insert (r : List (DatabaseType × α)) (k : DatabaseType) (c : α) :
    registryLookup (registryInsert r k c) k = some c := by
  induction r with
  | nil => simp [registryInsert, registryLookup]
  | cons hd tl ih =>
      obtain ⟨k', c'⟩ := hd
      by_cases hk : k' = k <;> simp [registryInsert, registryLookup, hk, ih]

set_option maxRecDepth 8000 in
/-- C1 (counterexample): in credentials mode with `username = None` the
source's builder does not fail: it returns a URL (with the `uid` parameter
simply missing), whereas the spec's checked variant reports a configuration
error at the same configuration. -/
theorem sqlServer_missing_username_cex :
    SQLServerClient.build_connection_url
        ⟨"localhost", "mydb", none, some "pw", "ODBC Driver 17 for SQL Server", false, false, true⟩
      = "mssql+pyodbc:///?odbc_connect=driver%3DODBC%2BDriver%2B17%2Bfor%2BSQL%2BServer%3Bserver%3Dlocalhost%3Bdatabase%3Dmydb%3Bpwd%3Dpw%3BMars_Connection%3Dyes%3BMultipleActiveResultSets%3DTrue%3BTrustServerCertificate%3Dyes%3BConnection+Timeout%3D30%3BCommand+Timeout%3D30"
    ∧ SQLServerClient.build_connection_url_specChecked
        ⟨"localhost", "mydb", none, some "pw", "ODBC Driver 17 for SQL Server", false, false, true⟩
      = Except.error "ConfigurationError: SQLServer credentials mode requires username and password" :=
  ⟨rfl, rfl⟩

/-- C1 (amended): in credentials mode, a missing username or password does not
make URL construction fail; the builder still returns an
`mssql+pyodbc:///?odbc_connect=` URL and the absent credential's parameter
(`uid`, resp. `pwd`) is omitted from the connection string. -/
theorem sqlServer_missing_credentials_amended (c : SQLServerConfig)
    (ht : c.trusted_connection = false) :
    (∃ s, SQLServerClient.build_connection_url c = "mssql+pyodbc:///?odbc_connect=" ++ s)
    ∧ (c.username = none → "uid" ∉ (presentParams c).map Prod.fst)
    ∧ (c.password = none → "pwd" ∉ (presentParams c).map Prod.fst) := by
  obtain ⟨server, database, username, password, driver, tc, echo, mars⟩ := c
  simp only at ht
  subst ht
  refine ⟨⟨_, rfl⟩, ?_, ?_⟩ <;> intro h <;> simp only at h <;> subst h
  · cases mars <;> rcases password with _ | p <;>
      simp [presentParams, sqlServerParams]
  · cases mars <;> rcases username with _ | u <;>
      simp [presentParams, sqlServerParams]

/-- Witness for `sqlServer_missing_credentials_amended` at a concrete
configuration. -/
theorem sqlServer_missing_credentials_amended_witness :
    "uid" ∉ (presentParams sqlServerCfgNoCreds).map Prod.fst :=
  (sqlServer_missing_credentials_amended sqlServerCfgNoCreds rfl).2.1 rfl

/-- C2 (counterexample): after `close()` (which only disposes the engine's
pool), a subsequent `execute_query` succeeds — it does not fail with the
closed-resource error the claim requires. -/
theorem close_then_execute_cex :
    (DatabaseClient.execute_query_client (DatabaseClient.close ⟨0, false⟩) stmtConst ()).2
        = Except.ok 1
    ∧ (DatabaseClient.execute_query_client (DatabaseClient.close ⟨0, false⟩) stmtConst ()).2
        ≠ Except.error DbError.closedResourceError :=
  ⟨rfl, fun h => Except.noConfusion h⟩

/-- C2 (amended): `close()` disposes the pool but does not make the client
unusable: every subsequent `execute_query` or `execute_many` behaves exactly
as on the un-closed client (the engine re-creates its pool), and in particular
no closed-resource error is raised. -/
theorem close_then_execute_amended (c : ClientState σ) (stmt : Statement σ π ρ)
    (p : π) (psl : List π) :
    DatabaseClient.execute_query_client (DatabaseClient.close c) stmt p
        = DatabaseClient.execute_query_client c stmt p
    ∧ DatabaseClient.execute_many_client (DatabaseClient.close c) stmt psl
        = DatabaseClient.execute_many_client c stmt psl :=
  ⟨rfl, rfl⟩

/-- C3 (counterexample): a PostgreSQL username containing the reserved
characters `@` and `:` appears verbatim in the built URL, not percent-encoded;
the URL differs from the spec's fully-encoded variant. -/
theorem username_not_encoded_cex :
    PostgreSQLClient.build_connection_url
        ⟨"localhost", "db", "user@host", "secret", 5432, false, "public"⟩
      = "postgresql://user@host:secret@localhost:5432/db"
    ∧ PostgreSQLClient.build_connection_url
          ⟨"localhost", "db", "user@host", "secret", 5432, false, "public"⟩
        ≠ PostgreSQLClient.build_connection_url_specEncoded
          ⟨"localhost", "db", "user@host", "secret", 5432, false, "public"⟩ := by
  refine ⟨rfl, ?_⟩
  decide

/-- C3 (amended): the PostgreSQL and MySQL builders percent-encode only the
password; the username is embedded verbatim.  `quote_plus` does encode the
reserved characters `@`, `:`, `/` and space wherever it is applied. -/
theorem credential_encoding_amended (p : PostgreSQLConfig) (m : MySQLConfig) :
    PostgreSQLClient.build_connection_url p
        = "postgresql://" ++ p.username ++ ":" ++ quote_plus p.password
            ++ "@" ++ p.host ++ ":" ++ toString p.port ++ "/" ++ p.database
    ∧ MySQLClient.build_connection_url m
        = "mysql+pymysql://" ++ m.username ++ ":" ++ quote_plus m.password
            ++ "@" ++ m.host ++ ":" ++ toString m.port ++ "/" ++ m.database
            ++ "?charset=" ++ m.charset
    ∧ quote_plus "p@ss w:o/rd" = "p%40ss+w%3Ao%2Frd" :=
  ⟨rfl, rfl, by decide⟩

/-- C4: `create` on a kind absent from the registry returns the ValueError
whose message names the kind and lists, in order, the `value` of every
registered kind — and leaves the registry unchanged. -/
theorem create_unregistered_error {κ : Type} {β : Type}
    (r : List (DatabaseType × (κ → β))) (k : DatabaseType) (kwargs : κ)
    (h : registryLookup r k = none) :
    DatabaseClientFactory.create r k kwargs
      = (Except.error ("Unknown database type: " ++ k.pyStr ++ ". Available: "
          ++ String.intercalate ", " (r.map (fun e => e.1.value))), r) := by
  simp [DatabaseClientFactory.create, h, unknownTypeMessage]

/-- Witness for `create_unregistered_error`: a registry holding only
PostgreSQL and SQLite rejects SQLSERVER with the fully spelled-out message. -/
theorem create_unregistered_error_witness :
    registryLookup partialRegistry DatabaseType.SQLSERVER = none
    ∧ DatabaseClientFactory.create partialRegistry DatabaseType.SQLSERVER ()
      = (Except.error
          "Unknown database type: DatabaseType.SQLSERVER. Available: postgresql, sqlite",
         partialRegistry) := by
  refine ⟨rfl, ?_⟩
  rw [create_unregistered_error partialRegistry DatabaseType.SQLSERVER () rfl]
  rfl

/-- C5: registering the same kind twice does not fail (dict assignment is
total) and is last-write-wins: the second constructor is the one found by
lookup and invoked by every subsequent `create` of that kind. -/
theorem register_last_write_wins {κ : Type} {β : Type}
    (r : List (DatabaseType × (κ → β))) (k : DatabaseType) (c1 c2 : κ → β) (kwargs : κ) :
    registryLookup (DatabaseClientFactory.register (DatabaseClientFactory.register r k c1) k c2) k
        = some c2
    ∧ (DatabaseClientFactory.create
          (DatabaseClientFactory.register (DatabaseClientFactory.register r k c1) k c2)
          k kwargs).1
        = Except.ok (c2 kwargs) := by
  constructor
  · exact registryLookup_insert _ k c2
  · simp [DatabaseClientFactory.create, DatabaseClientFactory.register, registryLookup_insert]

/-- C6: each of the four typed URL builders is a pure function of its
configuration: equal configurations yield equal URL strings (the builders read
nothing but the configuration record). -/
theorem url_builders_pure (a b : SQLServerConfig) (hab : a = b)
    (p q : PostgreSQLConfig) (hpq : p = q) (m n : MySQLConfig) (hmn : m = n)
    (s t : SQLiteConfig) (hst : s = t) :
    SQLServerClient.build_connection_url a = SQLServerClient.build_connection_url b
    ∧ PostgreSQLClient.build_connection_url p = PostgreSQLClient.build_connection_url q
    ∧ MySQLClient.build_connection_url m = MySQLClient.build_connection_url n
    ∧ SQLiteClient.build_connection_url s = SQLiteClient.build_connection_url t := by
  subst hab hpq hmn hst
  exact ⟨rfl, rfl, rfl, rfl⟩

/-- Witness for `url_builders_pure` at concrete configurations. -/
theorem url_builders_pure_witness :
    SQLServerClient.build_connection_url sqlServerCfgNoCreds
        = SQLServerClient.build_connection_url sqlServerCfgNoCreds
    ∧ PostgreSQLClient.build_connection_url ⟨"h", "d", "u", "pw", 5432, false, "public"⟩
        = PostgreSQLClient.build_connection_url ⟨"h", "d", "u", "pw", 5432, false, "public"⟩
    ∧ MySQLClient.build_connection_url ⟨"h", "d", "u", "pw", 3306, false, "utf8mb4"⟩
        = MySQLClient.build_connection_url ⟨"h", "d", "u", "pw", 3306, false, "utf8mb4"⟩
    ∧ SQLiteClient.build_connection_url ⟨":memory:", false⟩
        = SQLiteClient.build_connection_url ⟨":memory:", false⟩ :=
  url_builders_pure _ _ rfl _ _ rfl _ _ rfl _ _ rfl

/-- C7: `execute_many` is all-or-nothing: when the batch fails, the state the
caller observes is exactly the state from before the call (every prior
execution in the batch was rolled back by `get_session`) and the error
surfaces. -/
theorem execute_many_all_or_nothing (db : σ) (stmt : Statement σ π ρ) (psl : List π)
    (e : DbError) (h : (DatabaseClient.execute_many db stmt psl).2 = Except.error e) :
    DatabaseClient.execute_many db stmt psl = (db, Except.error e) := by
  unfold DatabaseClient.execute_many get_session_run at h ⊢
  cases hr : runParamsList stmt psl db <;> simp [hr, Except.map] at h ⊢
  exact h

/-- Witness for `execute_many_all_or_nothing`: a batch whose first execution
increments the state and whose second fails leaves the state at its original
value 0. -/
theorem execute_many_all_or_nothing_witness :
    DatabaseClient.execute_many 0 stmtFlag [true, false]
      = (0, Except.error (DbError.queryError "boom")) :=
  execute_many_all_or_nothing 0 stmtFlag [true, false] (DbError.queryError "boom") rfl

/-- C8: `exists(table, column, value)` returns true exactly when `fetch_one`
on the equivalent predicate (`SELECT * FROM table WHERE column = :x` with the
same bound value) returns a row. -/
theorem exists_iff_fetch_one_some (db : SqlDB) (t c : String) (v : Value) :
    DatabaseExplorer.existsB db t c v = true
      ↔ (DatabaseExplorer.fetch_one_where db t c v).isSome = true := by
  unfold DatabaseExplorer.existsB DatabaseExplorer.fetch_one_where
  cases selectWhereEq db t c v <;> simp

/-- C9: `from_url` is registry-independent and a round trip: the generic
client it returns stores the URL verbatim, its `_build_connection_url` returns
exactly that string, and the registry is neither consulted nor changed. -/
theorem from_url_round_trip (r : List (DatabaseType × α)) (u : String) (e : Bool) :
    GenericClient.build_connection_url (DatabaseClientFactory.from_url r u e).1 = u
    ∧ (DatabaseClientFactory.from_url r u e).2 = r
    ∧ ∀ (r' : List (DatabaseType × α)),
        (DatabaseClientFactory.from_url r u e).1 = (DatabaseClientFactory.from_url r' u e).1 :=
  ⟨rfl, rfl, fun _ => rfl⟩

/-- C10: the SQLServer builder is total — every configuration yields an
`odbc_connect` URL — and any parameter whose value is `None` is silently
omitted: its key does not occur among the rendered connection parts. -/
theorem sqlserver_builder_total_omits_none (c : SQLServerConfig) (key : String)
    (val : Option String) (hmem : (key, val) ∈ sqlServerParams c) (hnone : val = none) :
    key ∉ (presentParams c).map Prod.fst
    ∧ ∃ s, SQLServerClient.build_connection_url c = "mssql+pyodbc:///?odbc_connect=" ++ s := by
  subst hnone
  obtain ⟨server, database, username, password, driver, tc, echo, mars⟩ := c
  refine ⟨?_, _, rfl⟩
  cases tc <;> cases mars <;> rcases username with _ | u <;> rcases password with _ | p <;>
    simp_all [sqlServerParams, presentParams] <;>
    rcases hmem with h | h <;> subst h <;> decide

/-- Witness for `sqlserver_builder_total_omits_none`: at a concrete
configuration with both credentials absent, the `uid` parameter is omitted and
a URL is still produced. -/
theorem sqlserver_builder_total_omits_none_witness :
    ("uid", (none : Option String)) ∈ sqlServerParams sqlServerCfgNoCreds
    ∧ ("uid" ∉ (presentParams sqlServerCfgNoCreds).map Prod.fst
       ∧ ∃ s, SQLServerClient.build_connection_url sqlServerCfgNoCreds
              = "mssql+pyodbc:///?odbc_connect=" ++ s) :=
  ⟨by decide,
   sqlserver_builder_total_omits_none sqlServerCfgNoCreds "uid" none (by decide) rfl⟩

end SqlAgent
